import Mathlib

/-!
Verification of the aso-chainlit-app repository.

This file gives a shallow embedding of the repository's own logic:

* `calculate` (src/app.py): the constrained arithmetic-expression
  evaluator built on Python `compile`/`eval` with a name allow-list.
  The expression grammar is embedded as `PyExpr` (integer literals,
  identifiers, unary sign, binary arithmetic operators, calls), the
  compiled name tuple `co_names` as `coNames`, and the evaluation
  environment (`allowed_names` as locals, `{"__builtins__": {}}` as
  globals) as `evalPy`.  Python floats produced by true division and
  negative exponents are modelled as exact rationals.
* `invoke_agent`, `get_agent_response` and its response-extraction code
  (src/agent/app.py), over an abstract agent behaviour.
* `get_mcp_tools` / `create_agent_with_mcp` (src/agent/app.py), over an
  abstract tool-server fetch outcome.
* the CLI read-eval loop step shared by both `main` functions.
-/

namespace AsoChainlit

/-! ## Python values produced by the evaluator -/

/-- Values that can arise while evaluating an expression in the
`calculate` sandbox: integers, floats (modelled as exact rationals),
tuples, builtin function objects from the allow-list, and the empty
dict bound to `__builtins__` in the eval globals. -/
inductive PyVal where
  | vint (n : Int)
  | vrat (q : ℚ)
  | vtuple (elems : List PyVal)
  | vbfun (fname : String)
  | vdict
  deriving Repr

/-- The result of the `calculate` tool: either a Python value or the
error string built by the `except` clause. -/
inductive CalcResult where
  | ok (v : PyVal)
  | err (msg : String)
  deriving Repr

/-! ## Expression syntax -/

/-- Binary operators of the embedded expression grammar. -/
inductive Binop where
  | add | sub | mul | div | floordiv | mod | pow
  deriving Repr, DecidableEq

/-- Abstract syntax of the arithmetic expressions accepted by the
`calculate` sandbox: numeric literals, identifiers, unary sign,
binary operators and calls. -/
inductive PyExpr where
  | num (n : Nat)
  | name (s : String)
  | neg (e : PyExpr)
  | pos (e : PyExpr)
  | binop (op : Binop) (a b : PyExpr)
  | call (fn : PyExpr) (args : List PyExpr)
  deriving Repr

/-! ## Lexer -/

/-- Tokens of the expression grammar. -/
inductive Tok where
  | tint (n : Nat)
  | tid (s : String)
  | tplus | tminus | tstar | tslash | tdslash | tpercent | tdstar
  | tlparen | trparen | tcomma
  deriving Repr, DecidableEq

/-- First character of an identifier: letter or underscore. -/
def isIdentStart (c : Char) : Bool := c.isAlpha || c = '_'

/-- Subsequent character of an identifier: letter, digit or underscore. -/
def isIdentChar (c : Char) : Bool := c.isAlpha || c.isDigit || c = '_'

/-- Decimal value of a digit string. -/
def digitsToNat (ds : List Char) : Nat :=
  ds.foldl (fun n c => 10 * n + (c.toNat - 48)) 0

/-- Fuel-driven lexer.  Returns `none` on a character outside the
grammar (modelling a `SyntaxError` from `compile`). -/
def lex : Nat → List Char → Option (List Tok)
  | 0, _ => none
  | _ + 1, [] => some []
  | fuel + 1, c :: cs =>
    if c = ' ' || c = '\t' || c = '\n' then lex fuel cs
    else if c.isDigit then
      match List.span Char.isDigit (c :: cs) with
      | (ds, rest) => (lex fuel rest).map (Tok.tint (digitsToNat ds) :: ·)
    else if isIdentStart c then
      match List.span isIdentChar (c :: cs) with
      | (ids, rest) => (lex fuel rest).map (Tok.tid (String.mk ids) :: ·)
    else if c = '*' then
      match cs with
      | '*' :: rest => (lex fuel rest).map (Tok.tdstar :: ·)
      | _ => (lex fuel cs).map (Tok.tstar :: ·)
    else if c = '/' then
      match cs with
      | '/' :: rest => (lex fuel rest).map (Tok.tdslash :: ·)
      | _ => (lex fuel cs).map (Tok.tslash :: ·)
    else if c = '+' then (lex fuel cs).map (Tok.tplus :: ·)
    else if c = '-' then (lex fuel cs).map (Tok.tminus :: ·)
    else if c = '%' then (lex fuel cs).map (Tok.tpercent :: ·)
    else if c = '(' then (lex fuel cs).map (Tok.tlparen :: ·)
    else if c = ')' then (lex fuel cs).map (Tok.trparen :: ·)
    else if c = ',' then (lex fuel cs).map (Tok.tcomma :: ·)
    else none

/-! ## Recursive-descent parsing

Precedence follows Python: `+ -` below `* / // %`, below unary sign,
below right-associative `**`, below call postfixes. -/

mutual

/-- Additive level: `term (('+' | '-') term)*`. -/
def parseArith : Nat → List Tok → Option (PyExpr × List Tok)
  | 0, _ => none
  | fuel + 1, toks => do
    let (e, rest) ← parseTerm fuel toks
    parseArithRest fuel e rest

/-- Left-associative tail of the additive level. -/
def parseArithRest : Nat → PyExpr → List Tok → Option (PyExpr × List Tok)
  | 0, _, _ => none
  | fuel + 1, e, Tok.tplus :: rest => do
    let (e2, rest2) ← parseTerm fuel rest
    parseArithRest fuel (PyExpr.binop Binop.add e e2) rest2
  | fuel + 1, e, Tok.tminus :: rest => do
    let (e2, rest2) ← parseTerm fuel rest
    parseArithRest fuel (PyExpr.binop Binop.sub e e2) rest2
  | _ + 1, e, rest => some (e, rest)

/-- Multiplicative level: `unary (('*' | '/' | '//' | '%') unary)*`. -/
def parseTerm : Nat → List Tok → Option (PyExpr × List Tok)
  | 0, _ => none
  | fuel + 1, toks => do
    let (e, rest) ← parseUnary fuel toks
    parseTermRest fuel e rest

/-- Left-associative tail of the multiplicative level. -/
def parseTermRest : Nat → PyExpr → List Tok → Option (PyExpr × List Tok)
  | 0, _, _ => none
  | fuel + 1, e, Tok.tstar :: rest => do
    let (e2, rest2) ← parseUnary fuel rest
    parseTermRest fuel (PyExpr.binop Binop.mul e e2) rest2
  | fuel + 1, e, Tok.tslash :: rest => do
    let (e2, rest2) ← parseUnary fuel rest
    parseTermRest fuel (PyExpr.binop Binop.div e e2) rest2
  | fuel + 1, e, Tok.tdslash :: rest => do
    let (e2, rest2) ← parseUnary fuel rest
    parseTermRest fuel (PyExpr.binop Binop.floordiv e e2) rest2
  | fuel + 1, e, Tok.tpercent :: rest => do
    let (e2, rest2) ← parseUnary fuel rest
    parseTermRest fuel (PyExpr.binop Binop.mod e e2) rest2
  | _ + 1, e, rest => some (e, rest)

/-- Unary level: `('-' | '+') unary | power`. -/
def parseUnary : Nat → List Tok → Option (PyExpr × List Tok)
  | 0, _ => none
  | fuel + 1, Tok.tminus :: rest =>
    (parseUnary fuel rest).map (fun p => (PyExpr.neg p.1, p.2))
  | fuel + 1, Tok.tplus :: rest =>
    (parseUnary fuel rest).map (fun p => (PyExpr.pos p.1, p.2))
  | fuel + 1, toks => parsePower fuel toks

/-- Power level: `postfix ('**' unary)?`, right-associative as in
Python (the right operand re-enters the unary level). -/
def parsePower : Nat → List Tok → Option (PyExpr × List Tok)
  | 0, _ => none
  | fuel + 1, toks => do
    let (b, rest) ← parsePostfix fuel toks
    match rest with
    | Tok.tdstar :: rest2 => do
      let (e2, rest3) ← parseUnary fuel rest2
      some (PyExpr.binop Binop.pow b e2, rest3)
    | _ => some (b, rest)

/-- Postfix level: an atom followed by zero or more call suffixes. -/
def parsePostfix : Nat → List Tok → Option (PyExpr × List Tok)
  | 0, _ => none
  | fuel + 1, toks => do
    let (a, rest) ← parseAtom fuel toks
    parseCalls fuel a rest

/-- Iterated call suffixes `(...)` applied to a function expression. -/
def parseCalls : Nat → PyExpr → List Tok → Option (PyExpr × List Tok)
  | 0, _, _ => none
  | fuel + 1, f, Tok.tlparen :: Tok.trparen :: rest =>
    parseCalls fuel (PyExpr.call f []) rest
  | fuel + 1, f, Tok.tlparen :: rest => do
    let (args, rest2) ← parseArgs fuel rest
    parseCalls fuel (PyExpr.call f args) rest2
  | _ + 1, f, rest => some (f, rest)

/-- Comma-separated call arguments, consuming the closing parenthesis. -/
def parseArgs : Nat → List Tok → Option (List PyExpr × List Tok)
  | 0, _ => none
  | fuel + 1, toks => do
    let (e, rest) ← parseArith fuel toks
    match rest with
    | Tok.tcomma :: rest2 => do
      let (args, rest3) ← parseArgs fuel rest2
      some (e :: args, rest3)
    | Tok.trparen :: rest2 => some ([e], rest2)
    | _ => none

/-- Atom: integer literal, identifier, or parenthesised expression. -/
def parseAtom : Nat → List Tok → Option (PyExpr × List Tok)
  | 0, _ => none
  | _ + 1, Tok.tint n :: rest => some (PyExpr.num n, rest)
  | _ + 1, Tok.tid s :: rest => some (PyExpr.name s, rest)
  | fuel + 1, Tok.tlparen :: rest => do
    let (e, rest2) ← parseArith fuel rest
    match rest2 with
    | Tok.trparen :: rest3 => some (e, rest3)
    | _ => none
  | _ + 1, _ => none

end

/-- Parse an expression string, modelling `compile(expression,
'<string>', 'eval')`: the whole input must be consumed, otherwise the
result is `none` (a `SyntaxError`). -/
def parsePy (s : String) : Option PyExpr :=
  match lex (s.length + 1) s.toList with
  | none => none
  | some toks =>
    match parseArith (5 * toks.length + 8) toks with
    | some (e, []) => some e
    | _ => none

/-! ## Name scan (`co_names`) and allow-list -/

mutual

/-- All identifiers referenced by an expression, in first-use order —
the embedding of the compiled code object's `co_names` tuple. -/
def coNames : PyExpr → List String
  | .num _ => []
  | .name s => [s]
  | .neg e => coNames e
  | .pos e => coNames e
  | .binop _ a b => coNames a ++ coNames b
  | .call f args => coNames f ++ coNamesList args

/-- Identifiers referenced by a list of expressions. -/
def coNamesList : List PyExpr → List String
  | [] => []
  | e :: es => coNames e ++ coNamesList es

end

/-- The keys of the `allowed_names` mapping in `calculate`. -/
def allowedList : List String :=
  ["abs", "round", "min", "max", "sum", "pow", "divmod"]

/-- The rejection test of the name-scan loop: a name fails the scan
when it is neither in `allowed_names` nor in the literal exemption
list `['__builtins__']`. -/
def disallowed (n : String) : Bool :=
  !(allowedList.contains n) && !(n == "__builtins__")

/-! ## Evaluation -/

/-- Numeric view of a value, used for int/float promotion. -/
def asRat? : PyVal → Option ℚ
  | .vint n => some (n : ℚ)
  | .vrat q => some q
  | _ => none

/-- Shared shape of `+`, `-`, `*`: exact on two ints, promoted to
rationals (Python floats) otherwise, a `TypeError` on non-numbers. -/
def numBinop (f : Int → Int → Int) (g : ℚ → ℚ → ℚ) (x y : PyVal)
    (opName : String) : Except String PyVal :=
  match x, y with
  | .vint a, .vint b => .ok (.vint (f a b))
  | _, _ =>
    match asRat? x, asRat? y with
    | some a, some b => .ok (.vrat (g a b))
    | _, _ => .error ("unsupported operand type(s) for " ++ opName)

/-- True division `/`: always float-valued in Python, here an exact
rational; division by zero is a reported runtime error. -/
def divVal (x y : PyVal) : Except String PyVal :=
  match asRat? x, asRat? y with
  | some a, some b =>
    if b = 0 then .error "division by zero" else .ok (.vrat (a / b))
  | _, _ => .error "unsupported operand type(s) for /"

/-- Floor division `//`: floor semantics as in Python. -/
def floordivVal (x y : PyVal) : Except String PyVal :=
  match x, y with
  | .vint a, .vint b =>
    if b = 0 then .error "integer division or modulo by zero"
    else .ok (.vint (Int.fdiv a b))
  | _, _ =>
    match asRat? x, asRat? y with
    | some a, some b =>
      if b = 0 then .error "float floor division by zero"
      else .ok (.vrat ((a / b).floor : ℚ))
    | _, _ => .error "unsupported operand type(s) for //"

/-- Modulo `%`: the remainder takes the sign of the divisor as in
Python (`Int.fmod` pairs with `Int.fdiv`). -/
def modVal (x y : PyVal) : Except String PyVal :=
  match x, y with
  | .vint a, .vint b =>
    if b = 0 then .error "integer division or modulo by zero"
    else .ok (.vint (Int.fmod a b))
  | _, _ =>
    match asRat? x, asRat? y with
    | some a, some b =>
      if b = 0 then .error "float modulo by zero"
      else .ok (.vrat (a - b * ((a / b).floor : ℚ)))
    | _, _ => .error "unsupported operand type(s) for %"

/-- Exponentiation `**`/`pow`: integer result for a nonnegative int
exponent, a rational (Python float) for a negative one; non-integer
exponents are outside the modelled fragment. -/
def powVal (x y : PyVal) : Except String PyVal :=
  match x, y with
  | .vint a, .vint b =>
    if 0 ≤ b then .ok (.vint (a ^ b.toNat))
    else if a = 0 then .error "0.0 cannot be raised to a negative power"
    else .ok (.vrat ((a : ℚ) ^ b))
  | .vrat a, .vint b =>
    if 0 ≤ b then .ok (.vrat (a ^ b.toNat))
    else if a = 0 then .error "0.0 cannot be raised to a negative power"
    else .ok (.vrat (a ^ b))
  | _, _ => .error "unsupported operand type(s) for **"

/-- Dispatch for the binary operators. -/
def evalBinop : Binop → PyVal → PyVal → Except String PyVal
  | .add, .vtuple xs, .vtuple ys => .ok (.vtuple (xs ++ ys))
  | .add, x, y => numBinop (· + ·) (· + ·) x y "+"
  | .sub, x, y => numBinop (· - ·) (· - ·) x y "-"
  | .mul, x, y => numBinop (· * ·) (· * ·) x y "*"
  | .div, x, y => divVal x y
  | .floordiv, x, y => floordivVal x y
  | .mod, x, y => modVal x y
  | .pow, x, y => powVal x y

/-- Unary minus. -/
def negVal : PyVal → Except String PyVal
  | .vint n => .ok (.vint (-n))
  | .vrat q => .ok (.vrat (-q))
  | _ => .error "bad operand type for unary -"

/-- Unary plus. -/
def posVal : PyVal → Except String PyVal
  | .vint n => .ok (.vint n)
  | .vrat q => .ok (.vrat q)
  | _ => .error "bad operand type for unary +"

/-- Python `round` on a float: round half to even. -/
def roundHalfEven (q : ℚ) : Int :=
  let f := q.floor
  let r := q - (f : ℚ)
  if r < 1 / 2 then f
  else if 1 / 2 < r then f + 1
  else if f % 2 = 0 then f else f + 1

/-- Minimum/maximum fold: keeps the first operand on ties, as Python
does with its strict comparison. -/
def pickMinMax (isMin : Bool) (acc : PyVal) : List PyVal → Except String PyVal
  | [] => .ok acc
  | y :: ys =>
    match asRat? acc, asRat? y with
    | some a, some b =>
      pickMinMax isMin (if (if isMin then b < a else a < b) then y else acc) ys
    | _, _ => .error "comparison not supported between operand types"

/-- `min`/`max` call semantics: one tuple argument iterates its
elements, several arguments compare directly, a single non-iterable
argument is a `TypeError`. -/
def minMaxCall (isMin : Bool) (args : List PyVal) : Except String PyVal :=
  match args with
  | [] => .error "expected at least 1 argument, got 0"
  | [.vtuple []] => .error "arg is an empty sequence"
  | [.vtuple (x :: xs)] => pickMinMax isMin x xs
  | [_] => .error "object is not iterable"
  | x :: xs => pickMinMax isMin x xs

/-- Summation fold, starting as Python `sum` does from int `0`. -/
def sumVals (acc : PyVal) : List PyVal → Except String PyVal
  | [] => .ok acc
  | x :: xs =>
    match numBinop (· + ·) (· + ·) acc x "+" with
    | .ok acc2 => sumVals acc2 xs
    | .error e => .error e

/-- Application of the allow-listed builtin functions. -/
def applyBuiltin : String → List PyVal → Except String PyVal
  | "abs", [.vint n] => .ok (.vint (n.natAbs : Int))
  | "abs", [.vrat q] => .ok (.vrat |q|)
  | "abs", _ => .error "bad operand type for abs"
  | "round", [.vint n] => .ok (.vint n)
  | "round", [.vrat q] => .ok (.vint (roundHalfEven q))
  | "round", _ => .error "bad operand type for round"
  | "min", args => minMaxCall true args
  | "max", args => minMaxCall false args
  | "sum", [.vtuple xs] => sumVals (.vint 0) xs
  | "sum", [_] => .error "object is not iterable"
  | "sum", _ => .error "sum expected at most 2 arguments"
  | "pow", [x, y] => powVal x y
  | "pow", _ => .error "pow expected 2 arguments"
  | "divmod", [.vint a, .vint b] =>
    if b = 0 then .error "integer division or modulo by zero"
    else .ok (.vtuple [.vint (Int.fdiv a b), .vint (Int.fmod a b)])
  | "divmod", [_, _] => .error "unsupported operand type(s) for divmod"
  | "divmod", _ => .error "divmod expected 2 arguments"
  | _, _ => .error "object is not callable"

mutual

/-- Evaluation under the environment of the `eval` call in
`calculate`: `allowed_names` as locals (its keys evaluate to builtin
function objects), then the globals `{"__builtins__": {}}` where
`__builtins__` is the empty dict. -/
def evalPy : PyExpr → Except String PyVal
  | .num n => .ok (.vint (n : Int))
  | .name s =>
    if allowedList.contains s then .ok (.vbfun s)
    else if s = "__builtins__" then .ok .vdict
    else .error ("name " ++ s ++ " is not defined")
  | .neg e =>
    match evalPy e with
    | .ok v => negVal v
    | .error msg => .error msg
  | .pos e =>
    match evalPy e with
    | .ok v => posVal v
    | .error msg => .error msg
  | .binop op a b =>
    match evalPy a with
    | .ok va =>
      match evalPy b with
      | .ok vb => evalBinop op va vb
      | .error msg => .error msg
    | .error msg => .error msg
  | .call f args =>
    match evalPy f with
    | .ok vf =>
      match evalArgs args with
      | .ok vargs =>
        match vf with
        | .vbfun fname => applyBuiltin fname vargs
        | _ => .error "object is not callable"
      | .error msg => .error msg
    | .error msg => .error msg

/-- Evaluation of the argument list of a call, left to right. -/
def evalArgs : List PyExpr → Except String (List PyVal)
  | [] => .ok []
  | e :: es =>
    match evalPy e with
    | .ok v =>
      match evalArgs es with
      | .ok vs => .ok (v :: vs)
      | .error msg => .error msg
    | .error msg => .error msg

end

/-! ## The calculate tool -/

/-- The error string built by the `except` clause of `calculate`:
`f"Error calculating {expression}: {str(e)}"`. -/
def errMsg (expression msg : String) : String :=
  "Error calculating " ++ expression ++ ": " ++ msg

/-- The `calculate` tool of src/app.py: compile the expression, scan
every referenced name against the allow-list (with the literal
exemption of `__builtins__`), then evaluate; every failure is caught
and returned as an error string. -/
def calculate (expression : String) : CalcResult :=
  match parsePy expression with
  | none => .err (errMsg expression "invalid syntax")
  | some code =>
    match (coNames code).find? disallowed with
    | some n => .err (errMsg expression ("Use of " ++ n ++ " not allowed"))
    | none =>
      match evalPy code with
      | .ok v => .ok v
      | .error msg => .err (errMsg expression msg)

/-! ## Agent invocation and response formatting (src/agent/app.py) -/

/-- A message of the structured agent result.  `content` is `some`
exactly when the Python object has a `content` attribute
(`hasattr(final_message, 'content')`); `strRepr` is its
`str(...)` representation. -/
structure PyMessage where
  content : Option String
  strRepr : String
  deriving Repr, DecidableEq

/-- The structured result dict of an agent invocation, projected on
the keys the repository reads: `error` and `messages`.  An `Option`
field is `none` when the key is absent. -/
structure AgentResult where
  error : Option String
  messages : Option (List PyMessage)
  deriving Repr, DecidableEq

/-- Behaviour of the external `agent.ainvoke` call: from the user
input and thread id to either a structured result or a raised
exception message. -/
abbrev AgentBehavior : Type := String → String → Except String AgentResult

/-- `invoke_agent` of src/agent/app.py: forward the call, return the
result unchanged, and convert any raised exception into the
error-result shape built by the `except` clause. -/
def invoke_agent (agent : AgentBehavior) (user_input : String)
    (thread_id : String) : AgentResult :=
  match agent user_input thread_id with
  | .ok result => result
  | .error e => { error := some e, messages := none }

/-- The result-extraction part of `get_agent_response`: `error` key
first, then the last message of a present, non-empty `messages` list
(its `content` attribute if it has one, else its string
representation), else the literal fallback string. -/
def extractResponse (result : AgentResult) : String :=
  match result.error with
  | some e => "Error: " ++ e
  | none =>
    match result.messages with
    | some msgs =>
      match msgs.getLast? with
      | some finalMessage =>
        match finalMessage.content with
        | some c => c
        | none => finalMessage.strRepr
      | none => "No response generated."
    | none => "No response generated."

/-- The input-enhancement step of `get_agent_response`: `if site:` is
Python truthiness, so the two-line template is prepended only for a
non-empty site string. -/
def enhancedInput (user_input : String) (site : Option String) : String :=
  match site with
  | some s =>
    if s = "" then user_input
    else "Site: " ++ s ++ "\n\n        User Question: " ++ user_input
  | none => user_input

/-- `get_agent_response` of src/agent/app.py: enhance the input,
invoke the agent, extract the displayable text. -/
def get_agent_response (agent : AgentBehavior) (user_input : String)
    (thread_id : String) (site : Option String) : String :=
  extractResponse (invoke_agent agent (enhancedInput user_input site) thread_id)

/-! ## MCP tool fetching and agent construction (src/agent/app.py) -/

/-- Outcome of the external `mcp_client.get_tools()` call: a list of
tool names, or a raised exception message. -/
abbrev MCPFetch : Type := Except String (List String)

/-- `get_mcp_tools`: return the fetched tools, or an empty list when
the connection raises (the exception is caught and printed as a
warning). -/
def get_mcp_tools (fetch : MCPFetch) : List String :=
  match fetch with
  | .ok tools => tools
  | .error _ => []

/-- The warning text printed by the `except` clause of
`get_mcp_tools`. -/
def mcpWarning (e : String) : String :=
  "Warning: Could not connect to MCP server: " ++ e

/-- A constructed ReAct agent, projected on the arguments the
repository passes to `create_react_agent`. -/
structure ReactAgent where
  tools : List String
  model : String
  deriving Repr, DecidableEq

/-- The local tools registered in src/app.py (not in
src/agent/app.py). -/
def localToolNames : List String := ["get_current_time", "calculate"]

/-- `create_agent_with_mcp` of src/agent/app.py: fetch the MCP tools
and build the agent from `all_tools = mcp_tools` — no local tools are
added, despite the adjacent comment saying they are combined. -/
def create_agent_with_mcp (fetch : MCPFetch) : ReactAgent :=
  let mcp_tools := get_mcp_tools fetch
  let all_tools := mcp_tools
  { tools := all_tools, model := "azure_openai:gpt-4.1" }

/-! ## CLI read-eval loop step -/

/-- One read from standard input: a line, or an interruption
(`KeyboardInterrupt` / any other exception escaping the iteration). -/
inductive ReadOutcome where
  | line (s : String)
  | interrupted
  deriving Repr, DecidableEq

/-- What one loop iteration does with the read outcome. -/
inductive LoopStep where
  | exitLoop
  | submitMessage (s : String)
  deriving Repr, DecidableEq

/-- The termination commands checked by both `main` loops. -/
def exitCommands : List String := ["quit", "exit", "q"]

/-- The `user_input.lower()` call: lowercase each character. -/
def strLower (s : String) : String := String.mk (s.toList.map Char.toLower)

/-- One iteration of the CLI read-eval loop, shared by `main` in
src/app.py and src/agent/app.py: lowercase the line, break on an exit
command, otherwise submit the line to the agent. -/
def processInput : ReadOutcome → LoopStep
  | .interrupted => .exitLoop
  | .line s =>
    if strLower s ∈ exitCommands then .exitLoop else .submitMessage s

/-! ## Claim theorems -/

/-- C1: for every expression that parses and references only
allow-listed identifiers, `calculate` returns exactly the value given
by the standard arithmetic evaluation semantics; in particular
`"2 + 2"` evaluates to `4`, `"pow(2,10)"` to `1024` and
`"divmod(7,2)"` to the tuple `(3, 1)`. -/
theorem calculate_allowed_correct :
    (∀ (s : String) (e : PyExpr) (v : PyVal),
      parsePy s = some e →
      (∀ n ∈ coNames e, n ∈ allowedList) →
      evalPy e = Except.ok v →
      calculate s = CalcResult.ok v) ∧
    calculate "2 + 2" = CalcResult.ok (PyVal.vint 4) ∧
    calculate "pow(2,10)" = CalcResult.ok (PyVal.vint 1024) ∧
    calculate "divmod(7,2)" =
      CalcResult.ok (PyVal.vtuple [PyVal.vint 3, PyVal.vint 1]) := by
  refine ⟨?_, rfl, rfl, rfl⟩
  intro s e v hp hn he
  have hfind : (coNames e).find? disallowed = none := by
    apply List.find?_eq_none.mpr
    intro n hmem
    have hmem2 : allowedList.contains n = true := List.elem_iff.mpr (hn n hmem)
    have hdisf : disallowed n = false := by
      unfold disallowed
      rw [hmem2]
      rfl
    simp [hdisf]
  simp [calculate, hp, hfind, he]

/-- Witness for C1 at the concrete input `"3 - 1"`. -/
theorem calculate_allowed_correct_witness :
    calculate "3 - 1" = CalcResult.ok (PyVal.vint 2) :=
  calculate_allowed_correct.1 "3 - 1"
    (PyExpr.binop Binop.sub (PyExpr.num 3) (PyExpr.num 1)) (PyVal.vint 2)
    rfl (by decide) rfl

/-- C2 counterexample: `__builtins__` is an identifier outside the
stated allow-list, yet `calculate "__builtins__"` is not rejected by
the name scan — it evaluates to the empty dict instead of returning
an error string. -/
theorem calculate_builtins_not_rejected :
    "__builtins__" ∈ coNames (PyExpr.name "__builtins__") ∧
    "__builtins__" ∉ allowedList ∧
    parsePy "__builtins__" = some (PyExpr.name "__builtins__") ∧
    calculate "__builtins__" = CalcResult.ok PyVal.vdict :=
  ⟨by decide, by decide, rfl, rfl⟩

/-- C2 (amended): for every expression whose name scan finds an
identifier that is neither in the allow-list nor the exempted
`__builtins__`, `calculate` rejects with the `NameError` message of
the first such name, before any evaluation. -/
theorem calculate_disallowed_rejected (s : String) (e : PyExpr) (n : String)
    (hp : parsePy s = some e)
    (hfirst : (coNames e).find? disallowed = some n) :
    (n ∉ allowedList ∧ n ≠ "__builtins__") ∧
    calculate s = CalcResult.err (errMsg s ("Use of " ++ n ++ " not allowed")) := by
  have hdis : disallowed n = true := List.find?_some hfirst
  have hdis2 : n ∉ allowedList ∧ n ≠ "__builtins__" := by
    simpa [disallowed, List.contains] using hdis
  exact ⟨hdis2, by simp [calculate, hp, hfirst]⟩

/-- Witness for the amended C2 at `"abs(foo)"`, where the disallowed
name sits nested inside an allowed call's argument. -/
theorem calculate_disallowed_rejected_witness :
    (("foo" ∉ allowedList ∧ "foo" ≠ "__builtins__") ∧
     calculate "abs(foo)" =
       CalcResult.err (errMsg "abs(foo)" ("Use of " ++ "foo" ++ " not allowed"))) :=
  calculate_disallowed_rejected "abs(foo)"
    (PyExpr.call (PyExpr.name "abs") [PyExpr.name "foo"]) "foo" rfl (by decide)

/-- C3: `calculate` is a total function whose every failure is the
caught-and-formatted error string of the `except` clause; in
particular the empty string, the malformed `"2 +"` and the runtime
failure `"1/0"` all produce error strings, never an escaping fault. -/
theorem calculate_total_error_reporting :
    (∀ s : String, (∃ v, calculate s = CalcResult.ok v) ∨
      (∃ m, calculate s = CalcResult.err (errMsg s m))) ∧
    calculate "" = CalcResult.err (errMsg "" "invalid syntax") ∧
    calculate "2 +" = CalcResult.err (errMsg "2 +" "invalid syntax") ∧
    calculate "1/0" = CalcResult.err (errMsg "1/0" "division by zero") := by
  refine ⟨?_, rfl, rfl, rfl⟩
  intro s
  rcases hp : parsePy s with _ | e
  · exact Or.inr ⟨"invalid syntax", by simp [calculate, hp]⟩
  · rcases hf : (coNames e).find? disallowed with _ | n
    · rcases he : evalPy e with m | v
      · exact Or.inr ⟨m, by simp [calculate, hp, hf, he]⟩
      · exact Or.inl ⟨v, by simp [calculate, hp, hf, he]⟩
    · exact Or.inr ⟨"Use of " ++ n ++ " not allowed", by simp [calculate, hp, hf]⟩

/-- C4: the response formatter returns `"Error: "`-prefixed text when
the result carries an `error` key, the literal fallback when the
`messages` key is absent or empty, and otherwise the last message's
`content` attribute, falling back to its string representation. -/
theorem extractResponse_spec :
    (∀ (r : AgentResult) (e : String), r.error = some e →
      extractResponse r = "Error: " ++ e) ∧
    (∀ r : AgentResult, r.error = none →
      (r.messages = none ∨ r.messages = some []) →
      extractResponse r = "No response generated.") ∧
    (∀ (r : AgentResult) (msgs : List PyMessage) (m : PyMessage) (c : String),
      r.error = none → r.messages = some msgs → msgs.getLast? = some m →
      m.content = some c → extractResponse r = c) ∧
    (∀ (r : AgentResult) (msgs : List PyMessage) (m : PyMessage),
      r.error = none → r.messages = some msgs → msgs.getLast? = some m →
      m.content = none → extractResponse r = m.strRepr) := by
  refine ⟨?_, ?_, ?_, ?_⟩
  · intro r e he
    simp [extractResponse, he]
  · intro r he hm
    rcases hm with hm | hm <;> simp [extractResponse, he, hm]
  · intro r msgs m c he hm hl hc
    simp [extractResponse, he, hm, hl, hc]
  · intro r msgs m he hm hl hc
    simp [extractResponse, he, hm, hl, hc]

/-- Witness for C4 at concrete results. -/
theorem extractResponse_spec_witness :
    extractResponse { error := none, messages := none } = "No response generated." ∧
    extractResponse { error := some "boom", messages := none } = "Error: " ++ "boom" ∧
    extractResponse { error := none, messages := some [{ content := some "hi", strRepr := "msg" }] } = "hi" :=
  ⟨extractResponse_spec.2.1 _ rfl (Or.inl rfl),
   extractResponse_spec.1 _ "boom" rfl,
   extractResponse_spec.2.2.1 _ [{ content := some "hi", strRepr := "msg" }]
     { content := some "hi", strRepr := "msg" } "hi" rfl rfl rfl rfl⟩

/-- C5: `invoke_agent` never lets the external call's fault escape —
a raised exception becomes the error-result shape, and a successful
structured result is returned unmodified. -/
theorem invoke_agent_spec (agent : AgentBehavior) (user_input thread_id : String) :
    (∀ r : AgentResult, agent user_input thread_id = Except.ok r →
      invoke_agent agent user_input thread_id = r) ∧
    (∀ e : String, agent user_input thread_id = Except.error e →
      invoke_agent agent user_input thread_id =
        { error := some e, messages := none }) := by
  constructor
  · intro r h
    simp [invoke_agent, h]
  · intro e h
    simp [invoke_agent, h]

/-- An agent behaviour whose external call always raises. -/
def alwaysRaise : AgentBehavior := fun _ _ => Except.error "boom"

/-- Witness for C5 with an always-raising external call. -/
theorem invoke_agent_spec_witness :
    invoke_agent alwaysRaise "hi" "1" = { error := some "boom", messages := none } :=
  (invoke_agent_spec alwaysRaise "hi" "1").2 "boom" rfl

/-- C6 counterexample: with a present but empty site value the code's
`if site:` truthiness test skips the template, so the submitted text
is the bare user text, not the two-line concatenation the claim
requires for every present site value. -/
theorem enhancedInput_empty_site_counterexample :
    enhancedInput "hello" (some "") = "hello" ∧
    enhancedInput "hello" (some "") ≠
      "Site: " ++ "" ++ "\n\n        User Question: " ++ "hello" :=
  ⟨rfl, by decide⟩

/-- C6 (amended): for every non-empty site value, `get_agent_response`
submits to the agent exactly the verbatim two-line template followed
by the user text. -/
theorem get_agent_response_site_template (agent : AgentBehavior)
    (user_input thread_id s : String) (h : s ≠ "") :
    enhancedInput user_input (some s) =
      "Site: " ++ s ++ "\n\n        User Question: " ++ user_input ∧
    get_agent_response agent user_input thread_id (some s) =
      extractResponse (invoke_agent agent
        ("Site: " ++ s ++ "\n\n        User Question: " ++ user_input) thread_id) := by
  have he : enhancedInput user_input (some s) =
      "Site: " ++ s ++ "\n\n        User Question: " ++ user_input := by
    simp [enhancedInput, h]
  exact ⟨he, by unfold get_agent_response; rw [he]⟩

/-- Witness for the amended C6 at site `"example.com"` and user text
`"hello"`. -/
theorem get_agent_response_site_template_witness :
    enhancedInput "hello" (some "example.com") =
      "Site: example.com\n\n        User Question: hello" :=
  (get_agent_response_site_template alwaysRaise "hello" "1" "example.com"
    (by decide)).1

/-- C7: when the tool-server fetch raises, `get_mcp_tools` returns the
empty tool set, and `create_agent_with_mcp` still builds the agent —
but with an empty tool list: neither `get_current_time` nor
`calculate` (the local tools of src/app.py) is available to it,
contrary to the claim and to the code's own comments. -/
theorem create_agent_with_mcp_no_local_tools :
    get_mcp_tools (Except.error "connection refused") = [] ∧
    (create_agent_with_mcp (Except.error "connection refused")).tools = [] ∧
    "get_current_time" ∉ (create_agent_with_mcp (Except.error "connection refused")).tools ∧
    "calculate" ∉ (create_agent_with_mcp (Except.error "connection refused")).tools :=
  ⟨rfl, rfl, by decide, by decide⟩

/-- C8: one CLI loop iteration ends the loop exactly on an
interruption or on a line whose lowercase form is `quit`, `exit` or
`q`; every other line is submitted to the agent as a user message. -/
theorem processInput_spec (s : String) :
    (processInput (ReadOutcome.line s) = LoopStep.exitLoop ↔
      strLower s ∈ exitCommands) ∧
    (strLower s ∉ exitCommands →
      processInput (ReadOutcome.line s) = LoopStep.submitMessage s) ∧
    processInput ReadOutcome.interrupted = LoopStep.exitLoop := by
  refine ⟨?_, ?_, rfl⟩
  · by_cases h : strLower s ∈ exitCommands <;> simp [processInput, h]
  · intro h
    simp [processInput, h]

/-- Witness for C8 at a capitalised exit command and an ordinary
message. -/
theorem processInput_spec_witness :
    processInput (ReadOutcome.line "QUIT") = LoopStep.exitLoop ∧
    processInput (ReadOutcome.line "hello") = LoopStep.submitMessage "hello" :=
  ⟨(processInput_spec "QUIT").1.mpr (by decide),
   (processInput_spec "hello").2.1 (by decide)⟩

/-- C9: the name scan exempts `__builtins__`: it is outside the
allow-list yet not `disallowed`, and `calculate "__builtins__"`
evaluates the expression, with `__builtins__` bound to the empty
mapping of the eval globals. -/
theorem calculate_builtins_exempt :
    "__builtins__" ∉ allowedList ∧
    disallowed "__builtins__" = false ∧
    evalPy (PyExpr.name "__builtins__") = Except.ok PyVal.vdict ∧
    calculate "__builtins__" = CalcResult.ok PyVal.vdict :=
  ⟨by decide, rfl, rfl, rfl⟩

/-- C10: with an absent site value, `get_agent_response` submits the
user text to the agent completely unchanged. -/
theorem get_agent_response_no_site_verbatim (agent : AgentBehavior)
    (user_input thread_id : String) :
    enhancedInput user_input none = user_input ∧
    get_agent_response agent user_input thread_id none =
      extractResponse (invoke_agent agent user_input thread_id) :=
  ⟨rfl, rfl⟩

end AsoChainlit
